import Mathlib

/-!
Shallow embedding of two small in-memory CRUD HTTP services:
an item store (`ItemsApi`, from the unnamed FastAPI file) and a todo store
(`TodoApi`, from `todo_api.py`).  Handlers become pure functions over the
store, passed and returned explicitly; `HTTPException` becomes an explicit
error value; a Python `IndexError` (an unhandled crash, not an HTTP error)
is a distinct result constructor.
-/

set_option autoImplicit false

/-- An HTTP error raised by a handler (`HTTPException(status_code, detail)`). -/
structure HTTPError where
  status_code : Nat
  detail : String
deriving DecidableEq, Repr

namespace ItemsApi

/-- The `Item` pydantic model: `text: str = None`, `is_done: bool = False`. -/
structure Item where
  text : Option String
  is_done : Bool
deriving DecidableEq, Repr

/-- The 404 error raised by the single-item GET handler. -/
def itemNotFound : HTTPError := ⟨404, "Item not found"⟩

/-- Result of the single-item GET handler: a returned item, an HTTP error,
or an unhandled Python `IndexError`. -/
inductive GetItemResult where
  | found (item : Item)
  | httpError (e : HTTPError)
  | indexError
deriving DecidableEq, Repr

/-- Python list indexing `items[i]` for an `int` index: a negative index `i`
addresses position `len(items) + i`; an index outside `[-len, len)` is an
`IndexError`, modelled as `none`. -/
def pyIndex (items : List Item) (i : Int) : Option Item :=
  if i < 0 then
    if (items.length : Int) + i < 0 then none
    else items[((items.length : Int) + i).toNat]?
  else
    items[i.toNat]?

/-- Python slicing `items[0:limit]` for an `int` bound: a negative `limit`
addresses the stop position `len(items) + limit`, clamped to `[0, len]`. -/
def pySliceStop (n : Nat) (limit : Int) : Nat :=
  (if limit < 0 then (n : Int) + limit else limit).toNat

/-- Handler of `GET /items/\x7bitem_id\x7d`: `if item_id < len(items): return
items[item_id] else: raise HTTPException(404, "Item not found")`. -/
def get_item (item_id : Int) (items : List Item) : GetItemResult :=
  if item_id < (items.length : Int) then
    match pyIndex items item_id with
    | some it => .found it
    | none => .indexError
  else
    .httpError itemNotFound

/-- Handler of `GET /items`: `return items[0:limit]` (default `limit = 10`). -/
def list_items (limit : Int) (items : List Item) : List Item :=
  items.take (pySliceStop items.length limit)

/-- Handler of `POST /items`: `items.append(item); return items`.  The first
component is the response body, the second the updated store. -/
def create_item (item : Item) (items : List Item) : List Item × List Item :=
  let s := items ++ [item]
  (s, s)

end ItemsApi

namespace TodoApi

/-- The `Priority` IntEnum: `low = 3`, `medium = 2`, `high = 1`. -/
inductive Priority where
  | low
  | medium
  | high
deriving DecidableEq, Repr

/-- Integer code of a priority level, as serialized. -/
def Priority.val : Priority → Nat
  | .low => 3
  | .medium => 2
  | .high => 1

/-- The `Todo` pydantic model: a record with an assigned integer id. -/
structure Todo where
  todo_id : Int
  todo_name : String
  todo_description : String
  priority : Priority
deriving DecidableEq, Repr

/-- The `TodoCreate` pydantic model, after validation: the creation payload. -/
structure TodoCreate where
  todo_name : String
  todo_description : String
  priority : Priority
deriving DecidableEq, Repr

/-- The `TodoUpdate` pydantic model: a patch whose fields are all optional. -/
structure TodoUpdate where
  todo_name : Option String
  todo_description : Option String
  priority : Option Priority
deriving DecidableEq, Repr

/-- The 404 error raised by the todo handlers. -/
def todoNotFound : HTTPError := ⟨404, "Todo not found"⟩

/-- Validation rule on `todo_name` declared by
`Field(..., min_length = 3, max_length = 512)`. -/
def validTodoName (s : String) : Bool :=
  decide (3 ≤ s.length) && decide (s.length ≤ 512)

/-- Pydantic parsing of a `TodoCreate` body: `todo_name` must satisfy the
declared length bounds, `priority` defaults to `Priority.low` when absent;
a validation failure (HTTP 422) is modelled as `none`. -/
def parseTodoCreate (todo_name : String) (todo_description : String)
    (priority : Option Priority) : Option TodoCreate :=
  if validTodoName todo_name then
    some ⟨todo_name, todo_description, priority.getD .low⟩
  else
    none

/-- Python `max(l, default = d)`: `d` on an empty list, the maximum element
otherwise (the default is ignored when the list is nonempty). -/
def pyMaxDefault (l : List Int) (d : Int) : Int :=
  match l with
  | [] => d
  | x :: xs => xs.foldl max x

/-- Handler of `POST /todos`: assigns
`max([t.todo_id for t in all_todos], default = 0) + 1` as the new id,
appends the new record and returns it.  The first component is the response
body, the second the updated store. -/
def create_todo (todo : TodoCreate) (all_todos : List Todo) : Todo × List Todo :=
  let new_todo_id := pyMaxDefault (all_todos.map Todo.todo_id) 0 + 1
  let new_todo : Todo :=
    ⟨new_todo_id, todo.todo_name, todo.todo_description, todo.priority⟩
  (new_todo, all_todos ++ [new_todo])

/-- Handler of `PUT /todos/\x7btodo_id\x7d`: scans for the first record with
the given id, overwrites each field present (non-`None`) in the patch, and
returns the updated record; 404 when no record matches.  The first component
is the response, the second the updated store. -/
def update_todo (todo_id : Int) (updated_todo : TodoUpdate) :
    List Todo → Except HTTPError Todo × List Todo
  | [] => (.error todoNotFound, [])
  | t :: ts =>
    if t.todo_id = todo_id then
      let t2 : Todo :=
        ⟨t.todo_id,
         updated_todo.todo_name.getD t.todo_name,
         updated_todo.todo_description.getD t.todo_description,
         updated_todo.priority.getD t.priority⟩
      (.ok t2, t2 :: ts)
    else
      let r := update_todo todo_id updated_todo ts
      (r.1, t :: r.2)

/-- Response body of a successful delete: the dictionary
`\x7b"deleted": deleted_todo\x7d`. -/
structure DeleteResponse where
  deleted : Todo
deriving DecidableEq, Repr

/-- Handler of `DELETE /todos/\x7btodo_id\x7d`: scans for the first record
with the given id, pops it from the list and returns it wrapped; 404 when no
record matches.  The first component is the response, the second the updated
store. -/
def delete_todo (todo_id : Int) :
    List Todo → Except HTTPError DeleteResponse × List Todo
  | [] => (.error todoNotFound, [])
  | t :: ts =>
    if t.todo_id = todo_id then
      (.ok ⟨t⟩, ts)
    else
      let r := delete_todo todo_id ts
      (r.1, t :: r.2)

end TodoApi

namespace ItemsApi

lemma get_item_nonneg_found (items : List Item) (i : Int)
    (h0 : 0 ≤ i) (hlt : i < (items.length : Int)) :
    ∃ h : i.toNat < items.length,
      get_item i items = .found (items.get ⟨i.toNat, h⟩) := by
  have hn : i.toNat < items.length := by omega
  refine ⟨hn, ?_⟩
  simp only [get_item, if_pos hlt, pyIndex, if_neg (by omega : ¬ i < 0)]
  rw [List.getElem?_eq_getElem hn]
  rfl

lemma get_item_ge_notFound (items : List Item) (i : Int)
    (h : (items.length : Int) ≤ i) :
    get_item i items = .httpError itemNotFound := by
  simp only [get_item, if_neg (by omega : ¬ i < (items.length : Int))]

lemma get_item_below_range_indexError (items : List Item) (i : Int)
    (h : i < -(items.length : Int)) :
    get_item i items = .indexError := by
  simp only [get_item, if_pos (by omega : i < (items.length : Int)), pyIndex,
    if_pos (by omega : i < 0),
    if_pos (by omega : (items.length : Int) + i < 0)]

lemma get_item_neg_found (items : List Item) (i : Int)
    (hlo : -(items.length : Int) ≤ i) (hhi : i < 0) :
    ∃ h : ((items.length : Int) + i).toNat < items.length,
      get_item i items = .found (items.get ⟨((items.length : Int) + i).toNat, h⟩) := by
  have hn : ((items.length : Int) + i).toNat < items.length := by omega
  refine ⟨hn, ?_⟩
  simp only [get_item, if_pos (by omega : i < (items.length : Int)), pyIndex,
    if_pos hhi, if_neg (by omega : ¬ (items.length : Int) + i < 0)]
  rw [List.getElem?_eq_getElem hn]
  rfl

/-- C1 counterexample: on the one-item store, the GET handler at index `-1`
returns the item instead of failing with the 404 Not-Found error, refuting
the claim that every `i < 0` fails with NotFound. -/
theorem get_item_negative_counterexample :
    get_item (-1) [⟨some ("a"), false⟩] = .found ⟨some ("a"), false⟩ ∧
    get_item (-1) [⟨some ("a"), false⟩] ≠ .httpError itemNotFound := by
  constructor
  · rfl
  · decide

/-- C1 (amended): `get_item i` returns the `i`-th inserted item exactly when
`0 ≤ i < length` and fails with NotFound (404, "Item not found") exactly for
`i ≥ length`; for `i < 0` it never fails with NotFound: it returns the item
at position `length + i` when `-length ≤ i`, and raises an unhandled
`IndexError` when `i < -length`. -/
theorem get_item_spec (items : List Item) (i : Int) :
    (0 ≤ i → i < (items.length : Int) →
      ∃ h : i.toNat < items.length,
        get_item i items = .found (items.get ⟨i.toNat, h⟩)) ∧
    ((items.length : Int) ≤ i → get_item i items = .httpError itemNotFound) ∧
    (i < -(items.length : Int) → get_item i items = .indexError) ∧
    (-(items.length : Int) ≤ i → i < 0 →
      ∃ h : ((items.length : Int) + i).toNat < items.length,
        get_item i items = .found (items.get ⟨((items.length : Int) + i).toNat, h⟩)) :=
  ⟨get_item_nonneg_found items i, get_item_ge_notFound items i,
   get_item_below_range_indexError items i, get_item_neg_found items i⟩

/-- C1 witness: on the one-item store, `get_item 0` returns the item and
`get_item 1` fails with the 404 error. -/
theorem get_item_spec_witness :
    (∃ h : (0 : Int).toNat < [(⟨some ("a"), false⟩ : Item)].length,
      get_item 0 [⟨some ("a"), false⟩] =
        .found ([(⟨some ("a"), false⟩ : Item)].get ⟨(0 : Int).toNat, h⟩)) ∧
    get_item 1 [⟨some ("a"), false⟩] = .httpError itemNotFound :=
  ⟨(get_item_spec [⟨some ("a"), false⟩] 0).1 (by decide) (by decide),
   (get_item_spec [⟨some ("a"), false⟩] 1).2.1 (by decide)⟩

/-- C10: on a non-empty store of length `n`, the GET handler at a negative
`item_id` with `-n ≤ item_id < 0` succeeds and returns the element at
position `n + item_id`, because the bounds check only tests
`item_id < n`. -/
theorem get_item_negative_index (items : List Item) (i : Int)
    (_hne : 0 < items.length) (hlo : -(items.length : Int) ≤ i) (hhi : i < 0) :
    ∃ h : ((items.length : Int) + i).toNat < items.length,
      get_item i items = .found (items.get ⟨((items.length : Int) + i).toNat, h⟩) :=
  get_item_neg_found items i hlo hhi

/-- C10 witness: on a two-item store, `get_item (-1)` returns the second
item (position `2 + (-1) = 1`). -/
theorem get_item_negative_index_witness :
    ∃ h : ((2 : Int) + (-1)).toNat < [(⟨some ("a"), false⟩ : Item), ⟨some ("b"), true⟩].length,
      get_item (-1) [⟨some ("a"), false⟩, ⟨some ("b"), true⟩] =
        .found ([(⟨some ("a"), false⟩ : Item), ⟨some ("b"), true⟩].get ⟨((2 : Int) + (-1)).toNat, h⟩) :=
  get_item_negative_index [⟨some ("a"), false⟩, ⟨some ("b"), true⟩] (-1)
    (by decide) (by decide) (by decide)

end ItemsApi

namespace ItemsApi

/-- C2 counterexample: on a two-item store with `limit = -1`, `list_items`
returns one element, which is more than `limit` and differs from
`min(limit, length) = -1`, refuting the claim for negative limits. -/
theorem list_items_negative_counterexample :
    ¬ (((list_items (-1) [⟨some ("a"), false⟩, ⟨some ("b"), false⟩]).length : Int) ≤ -1) ∧
    ((list_items (-1) [⟨some ("a"), false⟩, ⟨some ("b"), false⟩]).length : Int) ≠
      min (-1 : Int) 2 := by
  decide

/-- C2 (amended): `list_items limit` always returns a prefix of the store in
insertion order; for every `limit ≥ 0` it returns exactly
`min(limit, current length)` elements (in particular never more than
`limit`); for `limit < 0` it returns `max(length + limit, 0)` elements
(Python slice semantics). -/
theorem list_items_spec (items : List Item) (limit : Int) :
    list_items limit items <+: items ∧
    (0 ≤ limit →
      (list_items limit items).length = min limit.toNat items.length) ∧
    (limit < 0 →
      (list_items limit items).length = ((items.length : Int) + limit).toNat) := by
  refine ⟨⟨items.drop (pySliceStop items.length limit), List.take_append_drop _ _⟩, ?_, ?_⟩
  · intro h
    simp only [list_items, pySliceStop, if_neg (by omega : ¬ limit < 0),
      List.length_take]
  · intro h
    simp only [list_items, pySliceStop, if_pos h, List.length_take]
    omega

/-- C2 witness: on a two-item store with `limit = 1`, the result is a prefix
of the store and has exactly `min(1, 2) = 1` element. -/
theorem list_items_spec_witness :
    list_items 1 [⟨some ("a"), false⟩, ⟨some ("b"), false⟩] <+:
      [(⟨some ("a"), false⟩ : Item), ⟨some ("b"), false⟩] ∧
    (list_items 1 [⟨some ("a"), false⟩, ⟨some ("b"), false⟩]).length =
      min (1 : Int).toNat [(⟨some ("a"), false⟩ : Item), ⟨some ("b"), false⟩].length :=
  ⟨(list_items_spec [⟨some ("a"), false⟩, ⟨some ("b"), false⟩] 1).1,
   (list_items_spec [⟨some ("a"), false⟩, ⟨some ("b"), false⟩] 1).2.1 (by decide)⟩

/-- C7: `create_item` appends the item at the end of the store and returns
the full updated sequence: the response equals the new store, its last
element is the created item, the length grows by exactly 1, and every
previously stored item keeps its position. -/
theorem create_item_spec (item : Item) (items : List Item) :
    (create_item item items).1 = items ++ [item] ∧
    (create_item item items).2 = items ++ [item] ∧
    (create_item item items).1.getLast? = some item ∧
    (create_item item items).2.length = items.length + 1 ∧
    (∀ i, i < items.length → (create_item item items).2[i]? = items[i]?) := by
  refine ⟨rfl, rfl, ?_, by simp [create_item], ?_⟩
  · simp [create_item]
  · intro i hi
    simp [create_item, List.getElem?_append_left hi]

/-- C7 witness: appending a concrete item to a one-item store keeps the
stored item at position 0. -/
theorem create_item_spec_witness :
    (create_item ⟨some ("b"), true⟩ [⟨some ("a"), false⟩]).2[0]? =
      [(⟨some ("a"), false⟩ : Item)][0]? :=
  (create_item_spec ⟨some ("b"), true⟩ [⟨some ("a"), false⟩]).2.2.2.2 0 (by decide)

end ItemsApi

namespace TodoApi

lemma le_foldl_max (l : List Int) (a : Int) : a ≤ l.foldl max a := by
  induction l generalizing a with
  | nil => exact le_rfl
  | cons b bs ih => exact le_trans (le_max_left a b) (ih (max a b))

lemma mem_le_foldl_max (l : List Int) (a x : Int) (hx : x ∈ l) :
    x ≤ l.foldl max a := by
  induction l generalizing a with
  | nil => cases hx
  | cons b bs ih =>
    rcases List.mem_cons.mp hx with h | h
    · subst h
      exact le_trans (le_max_right a x) (le_foldl_max bs (max a x))
    · exact ih (max a b) h

lemma mem_le_pyMaxDefault (l : List Int) (d x : Int) (hx : x ∈ l) :
    x ≤ pyMaxDefault l d := by
  cases l with
  | nil => cases hx
  | cons b bs =>
    rcases List.mem_cons.mp hx with h | h
    · subst h
      exact le_foldl_max bs x
    · exact mem_le_foldl_max bs b x h

lemma create_todo_id_gt (c : TodoCreate) (store : List Todo) :
    ∀ t ∈ store, t.todo_id < (create_todo c store).1.todo_id := by
  intro t ht
  have : t.todo_id ≤ pyMaxDefault (store.map Todo.todo_id) 0 :=
    mem_le_pyMaxDefault _ 0 _ (List.mem_map_of_mem Todo.todo_id ht)
  simp only [create_todo]
  omega

lemma update_todo_miss (todo_id : Int) (p : TodoUpdate) (store : List Todo)
    (h : ∀ t ∈ store, t.todo_id ≠ todo_id) :
    update_todo todo_id p store = (.error todoNotFound, store) := by
  induction store with
  | nil => rfl
  | cons t ts ih =>
    have ht : t.todo_id ≠ todo_id := h t (List.mem_cons_self t ts)
    have hr := ih (fun u hu => h u (List.mem_cons_of_mem t hu))
    simp [update_todo, ht, hr]

lemma update_todo_hit (todo_id : Int) (p : TodoUpdate)
    (pre post : List Todo) (t : Todo)
    (hpre : ∀ u ∈ pre, u.todo_id ≠ todo_id) (ht : t.todo_id = todo_id) :
    update_todo todo_id p (pre ++ t :: post) =
      (.ok ⟨t.todo_id, p.todo_name.getD t.todo_name,
            p.todo_description.getD t.todo_description,
            p.priority.getD t.priority⟩,
       pre ++ ⟨t.todo_id, p.todo_name.getD t.todo_name,
               p.todo_description.getD t.todo_description,
               p.priority.getD t.priority⟩ :: post) := by
  induction pre with
  | nil => simp [update_todo, ht]
  | cons u us ih =>
    have hu : u.todo_id ≠ todo_id := hpre u (List.mem_cons_self u us)
    have hr := ih (fun v hv => hpre v (List.mem_cons_of_mem u hv))
    simp [update_todo, hu, hr]

lemma delete_todo_miss_aux (todo_id : Int) (store : List Todo)
    (h : ∀ t ∈ store, t.todo_id ≠ todo_id) :
    delete_todo todo_id store = (.error todoNotFound, store) := by
  induction store with
  | nil => rfl
  | cons t ts ih =>
    have ht : t.todo_id ≠ todo_id := h t (List.mem_cons_self t ts)
    have hr := ih (fun u hu => h u (List.mem_cons_of_mem t hu))
    simp [delete_todo, ht, hr]

/-- C3: `create_todo` assigns the new record the id
`max(existing ids, default 0) + 1`, appends it, and that id is strictly
greater than every stored id; on the empty store the created todo gets
id 1. -/
theorem create_todo_id_spec (c : TodoCreate) (store : List Todo) :
    (create_todo c store).1.todo_id =
      pyMaxDefault (store.map Todo.todo_id) 0 + 1 ∧
    (create_todo c store).2 = store ++ [(create_todo c store).1] ∧
    (∀ t ∈ store, t.todo_id < (create_todo c store).1.todo_id) ∧
    (store = [] → (create_todo c store).1.todo_id = 1) := by
  refine ⟨rfl, rfl, create_todo_id_gt c store, ?_⟩
  intro h
  subst h
  rfl

/-- C3 witness: creating a todo on the empty store (for example after all
todos were deleted) assigns id 1. -/
theorem create_todo_id_spec_witness :
    (create_todo ⟨"Read", "Library", .low⟩ []).1.todo_id = 1 :=
  (create_todo_id_spec ⟨"Read", "Library", .low⟩ []).2.2.2 rfl

/-- C4: deleting a `todo_id` that matches no stored record fails with the
404 Not-Found error and leaves the store unmodified. -/
theorem delete_todo_miss (store : List Todo) (todo_id : Int)
    (h : ∀ t ∈ store, t.todo_id ≠ todo_id) :
    delete_todo todo_id store = (.error todoNotFound, store) :=
  delete_todo_miss_aux todo_id store h

/-- C4 witness: deleting id 99 from a concrete one-record store fails with
404 and returns the store unchanged. -/
theorem delete_todo_miss_witness :
    delete_todo 99 [⟨1, "Exercise", "Gym", .medium⟩] =
      (.error todoNotFound, [⟨1, "Exercise", "Gym", .medium⟩]) :=
  delete_todo_miss [⟨1, "Exercise", "Gym", .medium⟩] 99 (by decide)

/-- C8: deleting a `todo_id` that matches a stored record removes exactly
that record, preserves the relative order of the remaining records, and
returns the removed record wrapped as the deleted-response dictionary. -/
theorem delete_todo_hit (todo_id : Int) (pre post : List Todo) (t : Todo)
    (hpre : ∀ u ∈ pre, u.todo_id ≠ todo_id) (ht : t.todo_id = todo_id) :
    delete_todo todo_id (pre ++ t :: post) = (.ok ⟨t⟩, pre ++ post) := by
  induction pre with
  | nil => simp [delete_todo, ht]
  | cons u us ih =>
    have hu : u.todo_id ≠ todo_id := hpre u (List.mem_cons_self u us)
    have hr := ih (fun v hv => hpre v (List.mem_cons_of_mem u hv))
    simp [delete_todo, hu, hr]

/-- C8 witness: deleting id 3 from the seeded 5-record store removes the
"Shop" record and keeps ids 1, 2, 4, 5 in order. -/
theorem delete_todo_hit_witness :
    delete_todo 3
      [⟨1, "Exercise", "Gym", .medium⟩, ⟨2, "Read", "Library", .low⟩,
       ⟨3, "Shop", "Mall", .high⟩, ⟨4, "Study", "College", .medium⟩,
       ⟨5, "Meditate", "Session", .low⟩] =
      (.ok ⟨⟨3, "Shop", "Mall", .high⟩⟩,
       [⟨1, "Exercise", "Gym", .medium⟩, ⟨2, "Read", "Library", .low⟩,
        ⟨4, "Study", "College", .medium⟩, ⟨5, "Meditate", "Session", .low⟩]) :=
  delete_todo_hit 3
    [⟨1, "Exercise", "Gym", .medium⟩, ⟨2, "Read", "Library", .low⟩]
    [⟨4, "Study", "College", .medium⟩, ⟨5, "Meditate", "Session", .low⟩]
    ⟨3, "Shop", "Mall", .high⟩ (by decide) rfl

end TodoApi

namespace TodoApi

/-- C5: `update_todo` fails with 404 when no record matches; on the first
matching record it overwrites exactly the fields present (non-null) in the
patch, leaves absent fields and the id untouched, returns the updated
record, and leaves every other record in place. -/
theorem update_todo_spec (todo_id : Int) (p : TodoUpdate) (store : List Todo) :
    ((∀ t ∈ store, t.todo_id ≠ todo_id) →
      update_todo todo_id p store = (.error todoNotFound, store)) ∧
    (∀ pre t post, store = pre ++ t :: post →
      (∀ u ∈ pre, u.todo_id ≠ todo_id) → t.todo_id = todo_id →
      ∃ t2, update_todo todo_id p store = (.ok t2, pre ++ t2 :: post) ∧
        t2.todo_id = t.todo_id ∧
        t2.todo_name = p.todo_name.getD t.todo_name ∧
        t2.todo_description = p.todo_description.getD t.todo_description ∧
        t2.priority = p.priority.getD t.priority) := by
  constructor
  · exact update_todo_miss todo_id p store
  · intro pre t post hstore hpre ht
    subst hstore
    exact ⟨⟨t.todo_id, p.todo_name.getD t.todo_name,
            p.todo_description.getD t.todo_description,
            p.priority.getD t.priority⟩,
           update_todo_hit todo_id p pre post t hpre ht, rfl, rfl, rfl, rfl⟩

/-- C5 witness: updating record 1 with a patch containing only a priority
changes only the priority, keeping name and description. -/
theorem update_todo_spec_witness :
    ∃ t2, update_todo 1 ⟨none, none, some .high⟩ [⟨1, "Exercise", "Gym", .medium⟩] =
        (.ok t2, [] ++ t2 :: []) ∧
      t2.todo_id = (1 : Int) ∧
      t2.todo_name = (Option.getD none ("Exercise")) ∧
      t2.todo_description = (Option.getD none ("Gym")) ∧
      t2.priority = (Option.getD (some .high) .medium) :=
  (update_todo_spec 1 ⟨none, none, some .high⟩ [⟨1, "Exercise", "Gym", .medium⟩]).2
    [] ⟨1, "Exercise", "Gym", .medium⟩ [] rfl (by decide) rfl

/-- C6: creating a todo whose name has length `< 3` or `> 512` fails
validation, and the boundary lengths 3 and 512 are accepted. -/
theorem todo_name_validation (todo_name todo_description : String)
    (priority : Option Priority) :
    (todo_name.length < 3 ∨ 512 < todo_name.length →
      parseTodoCreate todo_name todo_description priority = none) ∧
    (todo_name.length = 3 ∨ todo_name.length = 512 →
      parseTodoCreate todo_name todo_description priority =
        some ⟨todo_name, todo_description, priority.getD .low⟩) := by
  constructor
  · intro h
    have hv : validTodoName todo_name = false := by
      simp only [validTodoName, Bool.and_eq_false_iff, decide_eq_false_iff_not]
      omega
    simp [parseTodoCreate, hv]
  · intro h
    have hv : validTodoName todo_name = true := by
      simp only [validTodoName, Bool.and_eq_true, decide_eq_true_eq]
      omega
    simp [parseTodoCreate, hv]

/-- C6 witness: a 2-character name is rejected while names of exactly 3 and
exactly 512 characters are accepted. -/
theorem todo_name_validation_witness :
    parseTodoCreate ("ab") ("d") none = none ∧
    parseTodoCreate ("abc") ("d") none = some ⟨"abc", "d", .low⟩ ∧
    parseTodoCreate (String.mk (List.replicate 512 'a')) ("d") none =
      some ⟨String.mk (List.replicate 512 'a'), "d", .low⟩ :=
  ⟨(todo_name_validation ("ab") ("d") none).1 (Or.inl (by decide)),
   (todo_name_validation ("abc") ("d") none).2 (Or.inl (by decide)),
   (todo_name_validation (String.mk (List.replicate 512 'a')) ("d") none).2
     (Or.inr (by rw [String.length_mk, List.length_replicate]))⟩

end TodoApi

namespace TodoApi

lemma update_todo_map_ids (todo_id : Int) (p : TodoUpdate) (store : List Todo) :
    (update_todo todo_id p store).2.map Todo.todo_id = store.map Todo.todo_id := by
  induction store with
  | nil => rfl
  | cons t ts ih =>
    by_cases h : t.todo_id = todo_id
    · simp [update_todo, h]
    · simp [update_todo, h, ih]

lemma delete_todo_sublist (todo_id : Int) (store : List Todo) :
    (delete_todo todo_id store).2.Sublist store := by
  induction store with
  | nil => exact List.Sublist.refl []
  | cons t ts ih =>
    by_cases h : t.todo_id = todo_id
    · simp only [delete_todo, if_pos h]
      exact List.sublist_cons_self t ts
    · simp only [delete_todo, if_neg h]
      exact List.Sublist.cons₂ t ih

lemma create_todo_nodup (c : TodoCreate) (store : List Todo)
    (h : (store.map Todo.todo_id).Nodup) :
    ((create_todo c store).2.map Todo.todo_id).Nodup := by
  have hgt := create_todo_id_gt c store
  have hmem : (create_todo c store).1.todo_id ∉ store.map Todo.todo_id := by
    intro hmem
    rcases List.mem_map.mp hmem with ⟨t, ht, hid⟩
    exact absurd hid (ne_of_gt (hgt t ht)).symm
  have : (create_todo c store).2.map Todo.todo_id =
      store.map Todo.todo_id ++ [(create_todo c store).1.todo_id] := by
    simp [create_todo]
  rw [this]
  rw [show store.map Todo.todo_id ++ [(create_todo c store).1.todo_id] =
      store.map Todo.todo_id ++ (create_todo c store).1.todo_id :: [] from rfl,
    List.nodup_middle]
  simp [List.nodup_cons, h, hmem]

/-- C9: on a store with pairwise-distinct todo ids, each of `create_todo`,
`update_todo` and `delete_todo` preserves distinctness: `create_todo`
assigns an id strictly greater than every existing id, `update_todo` never
changes any id, and `delete_todo` only removes records. -/
theorem todo_ids_invariants (store : List Todo) (c : TodoCreate)
    (todo_id : Int) (p : TodoUpdate) :
    (∀ t ∈ store, t.todo_id < (create_todo c store).1.todo_id) ∧
    (update_todo todo_id p store).2.map Todo.todo_id = store.map Todo.todo_id ∧
    (delete_todo todo_id store).2.Sublist store ∧
    ((store.map Todo.todo_id).Nodup →
      ((create_todo c store).2.map Todo.todo_id).Nodup ∧
      ((update_todo todo_id p store).2.map Todo.todo_id).Nodup ∧
      ((delete_todo todo_id store).2.map Todo.todo_id).Nodup) := by
  refine ⟨create_todo_id_gt c store, update_todo_map_ids todo_id p store,
    delete_todo_sublist todo_id store, ?_⟩
  intro h
  refine ⟨create_todo_nodup c store h, ?_, ?_⟩
  · rw [update_todo_map_ids todo_id p store]
    exact h
  · exact List.Nodup.sublist ((delete_todo_sublist todo_id store).map Todo.todo_id) h

/-- C9 witness: on a concrete two-record store with distinct ids, all three
operations leave the ids pairwise distinct. -/
theorem todo_ids_invariants_witness :
    ((create_todo ⟨"Shop", "Mall", .high⟩
        [⟨1, "Exercise", "Gym", .medium⟩, ⟨2, "Read", "Library", .low⟩]).2.map
      Todo.todo_id).Nodup ∧
    ((update_todo 2 ⟨none, none, some .high⟩
        [⟨1, "Exercise", "Gym", .medium⟩, ⟨2, "Read", "Library", .low⟩]).2.map
      Todo.todo_id).Nodup ∧
    ((delete_todo 1
        [⟨1, "Exercise", "Gym", .medium⟩, ⟨2, "Read", "Library", .low⟩]).2.map
      Todo.todo_id).Nodup := by
  have h := (todo_ids_invariants
    [⟨1, "Exercise", "Gym", .medium⟩, ⟨2, "Read", "Library", .low⟩]
    ⟨"Shop", "Mall", .high⟩ 2 ⟨none, none, some .high⟩).2.2.2 (by decide)
  have hd := (todo_ids_invariants
    [⟨1, "Exercise", "Gym", .medium⟩, ⟨2, "Read", "Library", .low⟩]
    ⟨"Shop", "Mall", .high⟩ 1 ⟨none, none, some .high⟩).2.2.2 (by decide)
  exact ⟨h.1, h.2.1, hd.2.2⟩

end TodoApi
